import Mathlib

/-!
# c-demo: `module_a.c` and `main.c`

A shallow embedding of the two translation units of the demo tree that carry code:

* `pkg_a/module_a/module_a.c`: the static flag `_changeme` and `module_a_init`;
* `project/src/main.c`: the static array `_some_variable` and `main`.

The header `module_unused.h` only declares `module_unused_init`; it contributes the name of
that function to the set of callable functions and nothing else.
-/

set_option linter.unusedVariables false

namespace CDemo

/-- The functions that the sources name: `module_a_init` is defined in `module_a.c`,
`module_b_init` and `module_c_init` are called by `main`, `module_unused_init` is declared in
`module_unused.h`. -/
inductive Fn where
  | module_a_init
  | module_b_init
  | module_c_init
  | module_unused_init
  deriving DecidableEq, Repr

/-- What an execution can do that is visible from outside the function that runs: call a
function of another translation unit, store to an element of a `volatile` object, or write
to an output stream. -/
inductive Event where
  | call (f : Fn)
  | store (index value : Nat)
  | output (bytes : List Nat)
  deriving DecidableEq, Repr

/-- The one way a checked array access can go wrong. -/
inductive Fault where
  | out_of_bounds (index length : Nat)
  deriving DecidableEq, Repr

/-- Everything that lives outside `main.c`: the flag `static volatile bool _changeme` of
`module_a.c` (line 12) and the rest of the process, of an arbitrary type `W`. The array of
`main.c` has internal linkage and its address is never passed on, so code of other
translation units sees and changes only this part. -/
structure Outside (W : Type) where
  _changeme : Bool
  ext : W

/-- The combined state: `static volatile uint8_t _some_variable[]` of `main.c` (line 18),
held as the list of its elements, and everything outside `main.c`. -/
structure State (W : Type) where
  _some_variable : List Nat
  outside : Outside W

/-- A function `void f (void)` of another translation unit, such as `module_b_init` and
`module_c_init`, whose bodies are not among the sources: the spec has them callable with no
arguments, returning nothing and not failing, so such a function maps what it can reach to
what it leaves behind when it returns. -/
abbrev Collaborator (W : Type) : Type := Outside W → Outside W

/-- A running execution: the state and the events so far, oldest first. -/
structure Exec (W : Type) where
  state : State W
  trace : List Event

/-- What `main` hands back: the state it leaves, its events, and the exit status. -/
structure Outcome (W : Type) where
  state : State W
  trace : List Event
  status : Int

/-- The initializer of `main.c`, line 18: `{1, 2, 3}`. -/
def _some_variable_init : List Nat := [1, 2, 3]

/-- The initializer of `module_a.c`, line 12: `false`. -/
def _changeme_init : Bool := false

/-- Conversion of an integer value to `uint8_t` on assignment. -/
def to_uint8 (v : Nat) : Nat := v % 2 ^ 8

/-- Conversion of an integer value to `uint32_t`. -/
def to_uint32 (v : Nat) : Nat := v % 2 ^ 32

/-- A checked store `a[i] = v` into an array of `uint8_t`: it fails when `i` is not an index
of `a`, and otherwise replaces element `i` by `v` converted to `uint8_t`. -/
def store_checked (a : List Nat) (i v : Nat) : Except Fault (List Nat) :=
  if i < a.length then .ok (a.set i (to_uint8 v)) else .error (.out_of_bounds i a.length)

/-- The statement `_some_variable[i] = v;` of `main.c`: the array is `volatile`, so every
store is an event of its own. -/
def store_some_variable (i v : Nat) (e : Exec W) : Except Fault (Exec W) :=
  match store_checked e.state._some_variable i v with
  | .error f => .error f
  | .ok a =>
    .ok { state := { e.state with _some_variable := a },
          trace := e.trace ++ [Event.store i (to_uint8 v)] }

/-- A call statement `f ();` to a function of another translation unit: the call is an
event, and the callee changes what lies outside `main.c`. -/
def call_extern (f : Fn) (body : Collaborator W) (e : Exec W) : Exec W :=
  { state := { e.state with outside := body e.state.outside },
    trace := e.trace ++ [Event.call f] }

/-- The statements of `main` that are its own, `main.c` lines 32 to 33:
`_some_variable[0] = 123; _some_variable[0] = 2;`. -/
def main_stores (e : Exec W) : Except Fault (Exec W) :=
  match store_some_variable 0 123 e with
  | .error f => .error f
  | .ok e1 => store_some_variable 0 2 e1

/-- The function `int main (int argc, const char *argv[])` of `main.c`, lines 24 to 39, with
the two callees as parameters. The body is: `module_b_init ();`, `module_c_init ();`, the two
stores, and then the closing brace, which for `main` is a `return 0;`. The lines 26, 27 and
35 to 38 are comments. -/
def main (module_b_init module_c_init : Collaborator W) (argc : Int) (argv : List String)
    (s : State W) : Except Fault (Outcome W) :=
  let e0 : Exec W := { state := s, trace := [] }
  let e1 := call_extern Fn.module_b_init module_b_init e0
  let e2 := call_extern Fn.module_c_init module_c_init e1
  match main_stores e2 with
  | .error f => .error f
  | .ok e3 => .ok { state := e3.state, trace := e3.trace, status := 0 }

/-- Modelled from the spec: the macro `CALC` of `module_a.h`, which is not among the
sources. The spec describes the initializer as negating the flag and "then" evaluating the
threshold comparison on the counter seeded to 1, with nothing in between: the macro leaves
both of its operands as it found them. -/
def CALC_spec (flag : Bool) (value : Nat) : Bool × Nat := (flag, value)

/-- The function `void module_a_init (void)` of `module_a.c`, lines 18 to 30. The macro `CALC`
and the constant `MODULE_A_SMTH` come from `module_a.h` and are parameters: `CALC` is given
the values of `_changeme` and `some_value` and returns the values they hold after its
expansion has run. The result is the state at exit together with the value of the local
`some_value` at exit. -/
def module_a_init (CALC : Bool → Nat → Bool × Nat) (MODULE_A_SMTH : Nat) (s : State W) :
    State W × Nat :=
  let some_value : Nat := 1
  let changeme := !s.outside._changeme
  let r := CALC changeme some_value
  let changeme := r.1
  let some_value := r.2
  let some_value := if some_value < MODULE_A_SMTH then to_uint32 (some_value + 1) else some_value
  ({ s with outside := { s.outside with _changeme := changeme } }, some_value)

/-- The state after `n` calls `module_a_init ();` in a row. -/
def module_a_init_times (CALC : Bool → Nat → Bool × Nat) (MODULE_A_SMTH : Nat) :
    Nat → State W → State W
  | 0, s => s
  | n + 1, s => module_a_init_times CALC MODULE_A_SMTH n (module_a_init CALC MODULE_A_SMTH s).1

/-- The state at program start, with nothing else in the process: both static variables
hold their initializers. -/
def initial_state : State Unit :=
  { _some_variable := _some_variable_init,
    outside := { _changeme := _changeme_init, ext := () } }

/-! ## Helper lemmas -/

theorem length_three_cases (l : List Nat) (h : l.length = 3) : ∃ x y z, l = [x, y, z] := by
  match l, h with
  | [x, y, z], _ => exact ⟨x, y, z, rfl⟩

theorem main_stores_eval (x y z : Nat) (o : Outside W) (t : List Event) :
    main_stores { state := { _some_variable := [x, y, z], outside := o }, trace := t }
      = .ok { state := { _some_variable := [2, y, z], outside := o },
              trace := t ++ [Event.store 0 123] ++ [Event.store 0 2] } := by
  rfl

theorem main_eval (module_b_init module_c_init : Collaborator W) (argc : Int)
    (argv : List String) (x y z : Nat) (o : Outside W) :
    main module_b_init module_c_init argc argv { _some_variable := [x, y, z], outside := o }
      = .ok { state := { _some_variable := [2, y, z],
                         outside := module_c_init (module_b_init o) },
              trace := [Event.call Fn.module_b_init, Event.call Fn.module_c_init,
                        Event.store 0 123, Event.store 0 2],
              status := 0 } := by
  rfl

theorem module_a_init_flag (CALC : Bool → Nat → Bool × Nat) (MODULE_A_SMTH : Nat)
    (s : State W) (hCALC : ∀ flag value, (CALC flag value).1 = flag) :
    (module_a_init CALC MODULE_A_SMTH s).1.outside._changeme = !s.outside._changeme := by
  simp [module_a_init, hCALC]

theorem module_a_init_times_flag (CALC : Bool → Nat → Bool × Nat) (MODULE_A_SMTH : Nat)
    (hCALC : ∀ flag value, (CALC flag value).1 = flag) (n : Nat) (s : State W) :
    (module_a_init_times CALC MODULE_A_SMTH n s).outside._changeme
      = if n % 2 = 0 then s.outside._changeme else !s.outside._changeme := by
  induction n generalizing s with
  | zero => simp [module_a_init_times]
  | succ n ih =>
    rw [module_a_init_times, ih, module_a_init_flag CALC MODULE_A_SMTH s hCALC]
    rcases Nat.mod_two_eq_zero_or_one n with h | h
    · have h1 : (n + 1) % 2 = 1 := by omega
      simp [h, h1]
    · have h1 : (n + 1) % 2 = 0 := by omega
      simp [h, h1]

/-! ## The entry point -/

/-- C1: for every argument vector and all collaborators `module_b_init`, `module_c_init`,
running `main` from a state whose `_some_variable` is the initializer `{1, 2, 3}` returns,
and the `_some_variable` it leaves is exactly `{2, 2, 3}`. -/
theorem main_final_some_variable (module_b_init module_c_init : Collaborator W) (argc : Int)
    (argv : List String) (o : Outside W) :
    ∃ r, main module_b_init module_c_init argc argv
          { _some_variable := _some_variable_init, outside := o } = .ok r
      ∧ r.state._some_variable = [2, 2, 3] :=
  ⟨_, main_eval module_b_init module_c_init argc argv 1 2 3 o, rfl⟩

/-- C4: for every argument vector, the empty one included, and all collaborators, `main`
run on a three-element `_some_variable` returns with exit status 0, never with a fault or
another status, and none of its events is an output operation. -/
theorem main_exit_success (module_b_init module_c_init : Collaborator W) (argc : Int)
    (argv : List String) (s : State W) (h : s._some_variable.length = 3) :
    (∃ r, main module_b_init module_c_init argc argv s = .ok r
      ∧ r.status = 0 ∧ ∀ bytes, Event.output bytes ∉ r.trace)
    ∧ (∃ r, main module_b_init module_c_init 0 [] s = .ok r
      ∧ r.status = 0 ∧ ∀ bytes, Event.output bytes ∉ r.trace)
    ∧ (∀ f, main module_b_init module_c_init argc argv s ≠ .error f)
    ∧ (∀ r, main module_b_init module_c_init argc argv s = .ok r → r.status = 0) := by
  obtain ⟨a, o⟩ := s
  obtain ⟨x, y, z, rfl⟩ := length_three_cases a h
  refine ⟨⟨_, main_eval module_b_init module_c_init argc argv x y z o, rfl, ?_⟩,
    ⟨_, main_eval module_b_init module_c_init 0 [] x y z o, rfl, ?_⟩, ?_, ?_⟩
  · intro bytes; simp
  · intro bytes; simp
  · intro f; rw [main_eval]; simp
  · intro r hr
    rw [main_eval] at hr
    cases hr
    rfl

/-- Witness of C4 at the initial state, argument vector `["prog", "x"]`, collaborators that
do nothing. -/
theorem main_exit_success_witness :
    (∃ r, main (id : Collaborator Unit) id 2 ["prog", "x"]
            { _some_variable := [1, 2, 3], outside := { _changeme := false, ext := () } } = .ok r
      ∧ r.status = 0 ∧ ∀ bytes, Event.output bytes ∉ r.trace)
    ∧ (∃ r, main (id : Collaborator Unit) id 0 []
            { _some_variable := [1, 2, 3], outside := { _changeme := false, ext := () } } = .ok r
      ∧ r.status = 0 ∧ ∀ bytes, Event.output bytes ∉ r.trace)
    ∧ (∀ f, main (id : Collaborator Unit) id 2 ["prog", "x"]
            { _some_variable := [1, 2, 3], outside := { _changeme := false, ext := () } }
          ≠ .error f)
    ∧ (∀ r, main (id : Collaborator Unit) id 2 ["prog", "x"]
            { _some_variable := [1, 2, 3], outside := { _changeme := false, ext := () } } = .ok r
          → r.status = 0) :=
  main_exit_success id id 2 ["prog", "x"]
    { _some_variable := [1, 2, 3], outside := { _changeme := false, ext := () } } rfl

/-- C5: on a three-element `_some_variable`, running `main` a second time on the state the
first run left (with any collaborators and arguments, the same or others) returns again and
leaves the same `_some_variable` as the first run did. -/
theorem main_idempotent_on_some_variable (module_b_init module_c_init : Collaborator W)
    (b2 c2 : Collaborator W) (argc argc2 : Int) (argv argv2 : List String) (s : State W)
    (h : s._some_variable.length = 3) :
    ∃ r1 r2, main module_b_init module_c_init argc argv s = .ok r1
      ∧ main b2 c2 argc2 argv2 r1.state = .ok r2
      ∧ r2.state._some_variable = r1.state._some_variable := by
  obtain ⟨a, o⟩ := s
  obtain ⟨x, y, z, rfl⟩ := length_three_cases a h
  exact ⟨_, _, main_eval module_b_init module_c_init argc argv x y z o,
    main_eval b2 c2 argc2 argv2 2 y z _, rfl⟩

/-- Witness of C5 at `{7, 8, 9}`, with a `module_b_init` that flips the flag. -/
theorem main_idempotent_on_some_variable_witness :
    ∃ r1 r2,
      main (fun o : Outside Unit => { o with _changeme := !o._changeme }) id 1 ["prog"]
          { _some_variable := [7, 8, 9], outside := { _changeme := false, ext := () } } = .ok r1
      ∧ main (fun o : Outside Unit => { o with _changeme := !o._changeme }) id 1 ["prog"]
          r1.state = .ok r2
      ∧ r2.state._some_variable = r1.state._some_variable :=
  main_idempotent_on_some_variable _ _ _ _ 1 1 ["prog"] ["prog"]
    { _some_variable := [7, 8, 9], outside := { _changeme := false, ext := () } } rfl

/-- C6: in every run of `main` on a three-element `_some_variable`, every call event is a
call of `module_b_init` or of `module_c_init`; neither `module_unused_init` nor
`module_a_init` is called. -/
theorem main_calls_only_b_and_c (module_b_init module_c_init : Collaborator W) (argc : Int)
    (argv : List String) (s : State W) (h : s._some_variable.length = 3) :
    ∃ r, main module_b_init module_c_init argc argv s = .ok r
      ∧ Event.call Fn.module_unused_init ∉ r.trace
      ∧ Event.call Fn.module_a_init ∉ r.trace
      ∧ (∀ f, Event.call f ∈ r.trace → f = Fn.module_b_init ∨ f = Fn.module_c_init)
      ∧ r.trace.filter (fun e => match e with | Event.call _ => true | _ => false)
          = [Event.call Fn.module_b_init, Event.call Fn.module_c_init] := by
  obtain ⟨a, o⟩ := s
  obtain ⟨x, y, z, rfl⟩ := length_three_cases a h
  refine ⟨_, main_eval module_b_init module_c_init argc argv x y z o, ?_, ?_, ?_, ?_⟩
  · simp
  · simp
  · intro f hf
    simpa using hf
  · rfl

/-- Witness of C6 at the initial state. -/
theorem main_calls_only_b_and_c_witness :
    ∃ r, main (id : Collaborator Unit) id 1 ["prog"]
          { _some_variable := [1, 2, 3], outside := { _changeme := false, ext := () } } = .ok r
      ∧ Event.call Fn.module_unused_init ∉ r.trace
      ∧ Event.call Fn.module_a_init ∉ r.trace
      ∧ (∀ f, Event.call f ∈ r.trace → f = Fn.module_b_init ∨ f = Fn.module_c_init)
      ∧ r.trace.filter (fun e => match e with | Event.call _ => true | _ => false)
          = [Event.call Fn.module_b_init, Event.call Fn.module_c_init] :=
  main_calls_only_b_and_c id id 1 ["prog"]
    { _some_variable := [1, 2, 3], outside := { _changeme := false, ext := () } } rfl

/-- C7: on a three-element `_some_variable`, `main` changes element 0 only: afterwards the
length is still 3 and every element at an index other than 0, so those at 1 and 2, is the
one that was there before. -/
theorem main_frame_some_variable (module_b_init module_c_init : Collaborator W) (argc : Int)
    (argv : List String) (s : State W) (h : s._some_variable.length = 3) :
    ∃ r, main module_b_init module_c_init argc argv s = .ok r
      ∧ r.state._some_variable.length = 3
      ∧ r.state._some_variable[1]? = s._some_variable[1]?
      ∧ r.state._some_variable[2]? = s._some_variable[2]?
      ∧ ∀ i, i ≠ 0 → r.state._some_variable[i]? = s._some_variable[i]? := by
  obtain ⟨a, o⟩ := s
  obtain ⟨x, y, z, rfl⟩ := length_three_cases a h
  refine ⟨_, main_eval module_b_init module_c_init argc argv x y z o, rfl, rfl, rfl, ?_⟩
  intro i hi
  cases i with
  | zero => exact absurd rfl hi
  | succ i => rfl

/-- Witness of C7 at `{7, 8, 9}`. -/
theorem main_frame_some_variable_witness :
    ∃ r, main (id : Collaborator Unit) id 1 ["prog"]
          { _some_variable := [7, 8, 9], outside := { _changeme := true, ext := () } } = .ok r
      ∧ r.state._some_variable.length = 3
      ∧ r.state._some_variable[1]? = [7, 8, 9][1]?
      ∧ r.state._some_variable[2]? = [7, 8, 9][2]?
      ∧ ∀ i, i ≠ 0 → r.state._some_variable[i]? = [7, 8, 9][i]? :=
  main_frame_some_variable id id 1 ["prog"]
    { _some_variable := [7, 8, 9], outside := { _changeme := true, ext := () } } rfl

/-- C8: the trace of `main` on a three-element `_some_variable` is exactly: call of
`module_b_init`, call of `module_c_init`, store of 123 to element 0, store of 2 to element 0,
in this order. -/
theorem main_trace (module_b_init module_c_init : Collaborator W) (argc : Int)
    (argv : List String) (s : State W) (h : s._some_variable.length = 3) :
    ∃ r, main module_b_init module_c_init argc argv s = .ok r
      ∧ r.trace = [Event.call Fn.module_b_init, Event.call Fn.module_c_init,
                   Event.store 0 123, Event.store 0 2] := by
  obtain ⟨a, o⟩ := s
  obtain ⟨x, y, z, rfl⟩ := length_three_cases a h
  exact ⟨_, main_eval module_b_init module_c_init argc argv x y z o, rfl⟩

/-- Witness of C8 at the initial state. -/
theorem main_trace_witness :
    ∃ r, main (id : Collaborator Unit) id 1 ["prog"]
          { _some_variable := [1, 2, 3], outside := { _changeme := false, ext := () } } = .ok r
      ∧ r.trace = [Event.call Fn.module_b_init, Event.call Fn.module_c_init,
                   Event.store 0 123, Event.store 0 2] :=
  main_trace id id 1 ["prog"]
    { _some_variable := [1, 2, 3], outside := { _changeme := false, ext := () } } rfl

/-- C9: with the stores checked, both stores of `main` into a three-element
`_some_variable` succeed, the first giving a three-element array again, so `main` never ends
in the out-of-bounds fault; and 123 and 2 are stored as they are, the conversion to
`uint8_t` changing neither. -/
theorem main_stores_in_bounds (module_b_init module_c_init : Collaborator W) (argc : Int)
    (argv : List String) (s : State W) (h : s._some_variable.length = 3) :
    (∃ a1 a2, store_checked s._some_variable 0 123 = .ok a1 ∧ a1.length = 3
        ∧ store_checked a1 0 2 = .ok a2
        ∧ ∃ r, main module_b_init module_c_init argc argv s = .ok r
            ∧ r.state._some_variable = a2)
    ∧ (∀ i n, main module_b_init module_c_init argc argv s ≠ .error (Fault.out_of_bounds i n))
    ∧ to_uint8 123 = 123 ∧ to_uint8 2 = 2 := by
  obtain ⟨a, o⟩ := s
  obtain ⟨x, y, z, rfl⟩ := length_three_cases a h
  refine ⟨⟨[123, y, z], [2, y, z], rfl, rfl, rfl, _,
    main_eval module_b_init module_c_init argc argv x y z o, rfl⟩, ?_, rfl, rfl⟩
  intro i n
  rw [main_eval]
  simp

/-- Witness of C9 at the initial state. -/
theorem main_stores_in_bounds_witness :
    (∃ a1 a2, store_checked [1, 2, 3] 0 123 = .ok a1 ∧ a1.length = 3
        ∧ store_checked a1 0 2 = .ok a2
        ∧ ∃ r, main (id : Collaborator Unit) id 1 ["prog"]
              { _some_variable := [1, 2, 3], outside := { _changeme := false, ext := () } }
              = .ok r
            ∧ r.state._some_variable = a2)
    ∧ (∀ i n, main (id : Collaborator Unit) id 1 ["prog"]
              { _some_variable := [1, 2, 3], outside := { _changeme := false, ext := () } }
            ≠ .error (Fault.out_of_bounds i n))
    ∧ to_uint8 123 = 123 ∧ to_uint8 2 = 2 :=
  main_stores_in_bounds id id 1 ["prog"]
    { _some_variable := [1, 2, 3], outside := { _changeme := false, ext := () } } rfl

/-! ## Module A -/

/-- C2: when the expansion of `CALC` leaves the flag as it found it, then for every `n` and
every initial value of `_changeme`, after `n` calls of `module_a_init` in a row the flag has
its initial value when `n` is even and the negation of it when `n` is odd. -/
theorem module_a_init_times_parity (CALC : Bool → Nat → Bool × Nat) (MODULE_A_SMTH : Nat)
    (hCALC : ∀ flag value, (CALC flag value).1 = flag) (n : Nat) (s : State W) :
    (Even n → (module_a_init_times CALC MODULE_A_SMTH n s).outside._changeme
        = s.outside._changeme)
    ∧ (Odd n → (module_a_init_times CALC MODULE_A_SMTH n s).outside._changeme
        = !s.outside._changeme) := by
  rw [module_a_init_times_flag CALC MODULE_A_SMTH hCALC n s]
  constructor
  · intro hn
    rw [if_pos (Nat.even_iff.mp hn)]
  · intro hn
    have h1 : ¬ n % 2 = 0 := by rw [Nat.odd_iff.mp hn]; decide
    rw [if_neg h1]

/-- Witness of C2: three calls from the initial flag `false`, with the `CALC` of the spec
and the threshold 0. -/
theorem module_a_init_times_parity_witness :
    (Even 3 → (module_a_init_times CALC_spec 0 3
          ({ _some_variable := [1, 2, 3], outside := { _changeme := false, ext := () } }
            : State Unit)).outside._changeme = false)
    ∧ (Odd 3 → (module_a_init_times CALC_spec 0 3
          ({ _some_variable := [1, 2, 3], outside := { _changeme := false, ext := () } }
            : State Unit)).outside._changeme = !false) :=
  module_a_init_times_parity CALC_spec 0 (fun _ _ => rfl) 3
    { _some_variable := [1, 2, 3], outside := { _changeme := false, ext := () } }

/-- C3: for both values of `_changeme` at entry and every threshold `MODULE_A_SMTH` greater
than 1, when the expansion of `CALC (_changeme, some_value)` leaves the counter at its seed 1,
the local `some_value` is 2 when `module_a_init` returns. -/
theorem module_a_init_some_value (CALC : Bool → Nat → Bool × Nat) (MODULE_A_SMTH : Nat)
    (s : State W) (hSMTH : 1 < MODULE_A_SMTH)
    (hCALC : (CALC (!s.outside._changeme) 1).2 = 1) :
    (module_a_init CALC MODULE_A_SMTH s).2 = 2 := by
  simp only [module_a_init, hCALC, if_pos hSMTH]
  rfl

/-- Witness of C3: the flag `true` at entry, the threshold 2, the `CALC` of the spec. -/
theorem module_a_init_some_value_witness :
    (module_a_init CALC_spec 2
      ({ _some_variable := [1, 2, 3], outside := { _changeme := true, ext := () } }
        : State Unit)).2 = 2 :=
  module_a_init_some_value CALC_spec 2
    { _some_variable := [1, 2, 3], outside := { _changeme := true, ext := () } }
    (by decide) rfl

/-! ## The two static variables -/

/-- C10: on the combined state, `module_a_init` leaves `_some_variable` (and the rest of the
process) as it was, whatever `CALC` and the threshold are; the two stores of `main` leave
`_changeme` and all else outside `main.c` as it was; and what `main` as a whole leaves outside
`main.c` is what its two callees left there. -/
theorem static_variables_frame (CALC : Bool → Nat → Bool × Nat) (MODULE_A_SMTH : Nat)
    (module_b_init module_c_init : Collaborator W) (argc : Int) (argv : List String)
    (s : State W) (h : s._some_variable.length = 3) :
    (module_a_init CALC MODULE_A_SMTH s).1._some_variable = s._some_variable
    ∧ (module_a_init CALC MODULE_A_SMTH s).1.outside.ext = s.outside.ext
    ∧ (∀ t, ∃ e, main_stores { state := s, trace := t } = .ok e
        ∧ e.state.outside._changeme = s.outside._changeme
        ∧ e.state.outside = s.outside)
    ∧ ∃ r, main module_b_init module_c_init argc argv s = .ok r
        ∧ r.state.outside = module_c_init (module_b_init s.outside) := by
  obtain ⟨a, o⟩ := s
  obtain ⟨x, y, z, rfl⟩ := length_three_cases a h
  refine ⟨rfl, rfl, ?_, _, main_eval module_b_init module_c_init argc argv x y z o, rfl⟩
  intro t
  exact ⟨_, main_stores_eval x y z o t, rfl, rfl⟩

/-- Witness of C10 at the initial state, with a `module_b_init` that flips the flag. -/
theorem static_variables_frame_witness :
    (module_a_init CALC_spec 0
        ({ _some_variable := [1, 2, 3], outside := { _changeme := false, ext := () } }
          : State Unit)).1._some_variable = [1, 2, 3]
    ∧ (module_a_init CALC_spec 0
        ({ _some_variable := [1, 2, 3], outside := { _changeme := false, ext := () } }
          : State Unit)).1.outside.ext = ()
    ∧ (∀ t, ∃ e, main_stores { state := initial_state, trace := t } = .ok e
        ∧ e.state.outside._changeme = false
        ∧ e.state.outside = { _changeme := false, ext := () })
    ∧ ∃ r, main (fun o : Outside Unit => { o with _changeme := !o._changeme }) id 1 ["prog"]
          { _some_variable := [1, 2, 3], outside := { _changeme := false, ext := () } } = .ok r
        ∧ r.state.outside = { _changeme := true, ext := () } :=
  static_variables_frame CALC_spec 0
    (fun o : Outside Unit => { o with _changeme := !o._changeme }) id 1 ["prog"]
    { _some_variable := [1, 2, 3], outside := { _changeme := false, ext := () } } rfl

end CDemo
